import Mathlib

/-!
Shallow embedding of the `config_utils` option-resolution engine
(`src/config_utils/__init__.py`) and verification of its specification.

The Python module resolves named configuration values from layered sources:
explicit in-code values, process environment variables, and parsed
sectioned files.  The embedding below translates the classes `Option`,
`Config`, `BaseConfigReader`, `EnvConfigReader` and `IniConfigReader`
into Lean definitions, modelling Python runtime values with an explicit
value domain `PyVal` (so that Python truthiness tests such as
`if self._value:` are rendered faithfully) and exceptions with an
explicit error type `PyErr` returned through `Except`.
-/

namespace ConfigUtils

/-- Domain of raw Python values flowing through the engine: `None`,
integers, strings and booleans.  This is the closure of what the code
paths manipulate (explicit values, defaults, processor results, raw
reader strings). -/
inductive PyVal where
  | none
  | int (n : Int)
  | str (s : String)
  | bool (b : Bool)
deriving DecidableEq

/-- Python truthiness of a `PyVal`, as used by the source in
`if self._value:` and `if self._default:` (class `Option`). -/
def truthy : PyVal → Bool
  | PyVal.none => false
  | PyVal.int n => n != 0
  | PyVal.str s => s != ""
  | PyVal.bool b => b

/-- Embedding of the Python class `Option` (renamed: `Option` is taken by
Lean's core type).  Field `val` is `_value`, `dflt` is `_default`,
`processor` is the already-defaulted `_processor` (the constructor stores
`processor or (lambda x: x)`). -/
structure ConfigOption where
  name : String
  section? : Option String
  val : PyVal
  dflt : PyVal
  processor : PyVal → PyVal
  description : Option String

/-- Embedding of `Option.__init__`: a missing `processor` argument is
replaced by the identity function (`processor or (lambda x: x)`). -/
def mkOption (name : String) (dflt val : PyVal) (proc : Option (PyVal → PyVal))
    (sec desc : Option String) : ConfigOption :=
  ⟨name, sec, val, dflt, proc.getD (fun x => x), desc⟩

/-- Embedding of the property `Option.value`: the processed explicit value
when `_value` is truthy, and Python `None` otherwise
(`if self._value: return self._processor(self._value)`). -/
def ConfigOption.value (o : ConfigOption) : PyVal :=
  if truthy o.val then o.processor o.val else PyVal.none

/-- Embedding of the property `Option.default`: the processed default when
`_default` is truthy, and Python `None` otherwise. -/
def ConfigOption.default (o : ConfigOption) : PyVal :=
  if truthy o.dflt then o.processor o.dflt else PyVal.none

/-- Python `==` on optional section strings (`None == None` is `True`,
`None == "a"` is `False`). -/
def sectEq : Option String → Option String → Bool
  | Option.none, Option.none => true
  | Option.some a, Option.some b => a == b
  | _, _ => false

/-- Embedding of `BaseOption.__eq__`: two options are equal iff their
`(name, section)` identities coincide. -/
def sameIdentity (a b : ConfigOption) : Bool :=
  sectEq a.section? b.section? && (a.name == b.name)

/-- Python `set.add` on an option set keyed by identity: adding an option
whose identity is already present is a NO-OP (the previously stored
element is kept); otherwise the option is appended. -/
def setAdd (opts : List ConfigOption) (o : ConfigOption) : List ConfigOption :=
  if opts.any (fun p => sameIdentity p o) then opts else opts ++ [o]

/-- Embedding of `set(options or [])` in `BaseConfig.__init__`: building a
set from a list keeps the first element of each identity. -/
def setOfList (l : List ConfigOption) : List ConfigOption :=
  l.foldl setAdd []

/-- Python `|=` (set union in place) used by `get_flat`: members of the
right operand are added one by one, existing members being kept. -/
def setUnion (a b : List ConfigOption) : List ConfigOption :=
  b.foldl setAdd a

/-- Exception values raised by the module.  The three `ConfigError`
classes carry `message` and `attempts`; `attributeError` models Python's
`AttributeError` (a plain `Option` has no `resolve` method) and
`typeError` models `TypeError` (iterating or extending a `None`
`attempts` field).  The latter two are not `ConfigError` subclasses. -/
inductive PyErr where
  | configError (message : Option String) (attempts : Option (List String))
  | undefinedOptionError (message : Option String) (attempts : Option (List String))
  | unassignedOptionError (message : Option String) (attempts : Option (List String))
  | attributeError
  | typeError
deriving DecidableEq

instance {ε α : Type} [DecidableEq ε] [DecidableEq α] : DecidableEq (Except ε α) := fun a b =>
  match a, b with
  | Except.ok x, Except.ok y =>
      if h : x = y then Decidable.isTrue (by rw [h])
      else Decidable.isFalse (fun hc => h (Except.ok.inj hc))
  | Except.error x, Except.error y =>
      if h : x = y then Decidable.isTrue (by rw [h])
      else Decidable.isFalse (fun hc => h (Except.error.inj hc))
  | Except.ok _, Except.error _ => Decidable.isFalse (fun hc => Except.noConfusion hc)
  | Except.error _, Except.ok _ => Decidable.isFalse (fun hc => Except.noConfusion hc)

/-- Whether an exception is caught by `except ConfigError`. -/
def isConfigError : PyErr → Bool
  | PyErr.configError _ _ => true
  | PyErr.undefinedOptionError _ _ => true
  | PyErr.unassignedOptionError _ _ => true
  | _ => false

/-- The `attempts` attribute of a raised exception (`None` for the
non-`ConfigError` kinds, which have no such attribute in the model). -/
def attemptsOf : PyErr → Option (List String)
  | PyErr.configError _ a => a
  | PyErr.undefinedOptionError _ a => a
  | PyErr.unassignedOptionError _ a => a
  | _ => Option.none

/-- Parsed INI file contents as held by `configparser.ConfigParser` after
`read_file`: named sections with their key/value pairs, plus the implicit
`DEFAULT` section whose keys are visible from every section.  Keys are
stored lower-cased, as `configparser` does. -/
structure IniData where
  sections : List (String × List (String × String))
  defaults : List (String × String)

/-- Python `str.upper` restricted to ASCII, character by character (the
option names of this module are ASCII identifiers). -/
def upperStr (s : String) : String :=
  String.mk (s.data.map Char.toUpper)

/-- Python `str.lower` restricted to ASCII, character by character (used
by `configparser`'s option-name transform). -/
def lowerStr (s : String) : String :=
  String.mk (s.data.map Char.toLower)

/-- First value bound to a key in an association list (Python dict
lookup order for our snapshots). -/
def lookupStr (l : List (String × String)) (k : String) : Option String :=
  (l.find? (fun p => p.1 == k)).map (fun p => p.2)

/-- Embedding of `self._config[section][name]`: looking a key up in a
parser section consults the section's own pairs and then the implicit
`DEFAULT` section; a missing section or key gives `KeyError`, modelled
as `none`.  Option names are lower-cased by `configparser`. -/
def iniGet (d : IniData) (sec key : String) : Option String :=
  let k := lowerStr key
  if sec == "DEFAULT" then lookupStr d.defaults k
  else
    match d.sections.find? (fun p => p.1 == sec) with
    | Option.none => Option.none
    | Option.some p =>
        match lookupStr p.2 k with
        | Option.some v => Option.some v
        | Option.none => lookupStr d.defaults k

/-- Process environment snapshot (`os.environ`). -/
abbrev EnvMap := List (String × String)

/-- Lookup in the environment snapshot. -/
def envLookup (env : EnvMap) (k : String) : Option String :=
  (env.find? (fun p => p.1 == k)).map (fun p => p.2)

/-- Embedding of `EnvConfigReader._env_name`: the stored `_prefix`
concatenated with the option name, upper-cased. -/
def envVarName (pfx name : String) : String :=
  upperStr (pfx ++ name)

/-- Attempt message produced by `EnvConfigReader.resolve` on failure. -/
def envFailMsg (name varName : String) : String :=
  "EnvConfigReader | searching for " ++ name ++ " | could not find " ++ varName

/-- Attempt message produced by `IniConfigReader.resolve` for a section
that does not hold the requested key. -/
def iniFailMsg (name sec : String) : String :=
  "IniConfigReader | searching for " ++ name ++ " | not found in section " ++ sec

mutual
/-- The configuration-object tree.  `config` embeds the Python class
`Config` (its option set, its ordered reader list, and its current
default `section` attribute); `envReader` embeds `EnvConfigReader` (its
stored `_prefix`); `iniReader` embeds `IniConfigReader` (its `_sections`
and the parsed file snapshot `_config`). -/
inductive Cfg where
  | config (options : List ConfigOption) (readers : CfgList) (sect : Option String)
  | envReader (pfx : String)
  | iniReader (sectionNames : List String) (data : IniData)

/-- The `readers` list of a `Config`, as a first-class list so that the
mutually recursive traversals of the source stay structural. -/
inductive CfgList where
  | nil
  | cons (head : Cfg) (tail : CfgList)
end

/-- Python `isinstance(rd, BaseConfigReader)`. -/
def isBaseReader : Cfg → Bool
  | Cfg.config _ _ _ => false
  | _ => true

/-- The `section` attribute of a `Config` (reader classes have none;
the accessor is only invoked on `Config` instances in the source). -/
def cfgSection : Cfg → Option String
  | Cfg.config _ _ s => s
  | _ => Option.none

/-- List append on the reader representation. -/
def appendC : CfgList → CfgList → CfgList
  | CfgList.nil, l => l
  | CfgList.cons a t, l => CfgList.cons a (appendC t l)

/-- Embedding of `Config.__init__` via the public constructor: the
options list is turned into a set. -/
def cfgMk (options : List ConfigOption) (readers : CfgList) (sec : Option String) : Cfg :=
  Cfg.config (setOfList options) readers sec

/-- Embedding of `Config.__add__`: `A + B` is a fresh `Config` with no
own options, readers `[A, B]` and no default section. -/
def addC (a b : Cfg) : Cfg :=
  Cfg.config [] (CfgList.cons a (CfgList.cons b CfgList.nil)) Option.none

/-- Embedding of the local option scan in `Config.get_option`: the first
option in the set whose `(name, section)` identity matches. -/
def findOption (opts : List ConfigOption) (n : String) (s : Option String) :
    Option ConfigOption :=
  opts.find? (fun o => o.name == n && sectEq o.section? s)

/-- Embedding of `Config.option(...)`: a non-`None` `section` argument
first mutates the config's own `section` attribute; the new option is
built with the (possibly updated) default section and added to the
option set with `set.add` semantics. -/
def optionB (c : Cfg) (n : String) (dflt val : PyVal) (proc : Option (PyVal → PyVal))
    (sec desc : Option String) : Cfg :=
  match c with
  | Cfg.config opts rs s =>
      let s' := if sec.isSome then sec else s
      Cfg.config (setAdd opts (mkOption n dflt val proc s' desc)) rs s'
  | c => c

/-- Embedding of `EnvConfigReader.resolve` and `IniConfigReader.resolve`
(dispatch on the reader class).  `EnvConfigReader` reads the environment
at `(prefix + name).upper()`, turning `KeyError` into
`UnassignedOptionError` with one attempt message; `IniConfigReader`
scans its configured sections in order, accumulating one attempt message
per missing section.  The `config` case is the abstract
`BaseConfig.resolve` and is never dispatched to by the resolution loop,
which filters on `isinstance(rd, BaseConfigReader)`. -/
def baseResolve (env : EnvMap) : Cfg → ConfigOption → Except PyErr PyVal
  | Cfg.envReader pfx, o =>
      match envLookup env (envVarName pfx o.name) with
      | Option.some v => Except.ok (PyVal.str v)
      | Option.none =>
          Except.error (PyErr.unassignedOptionError Option.none
            (Option.some [envFailMsg o.name (envVarName pfx o.name)]))
  | Cfg.iniReader secs d, o => iniResolve d secs o.name []
  | Cfg.config _ _ _, _ => Except.error PyErr.typeError
where
  /-- The section scan loop of `IniConfigReader.resolve`. -/
  iniResolve (d : IniData) : List String → String → List String → Except PyErr PyVal
    | [], _, att => Except.error (PyErr.unassignedOptionError Option.none (Option.some att))
    | s :: rest, n, att =>
        match iniGet d s n with
        | Option.some v => Except.ok (PyVal.str v)
        | Option.none => iniResolve d rest n (att ++ [iniFailMsg n s])

/-- Outcome of the reader loop inside `Config.resolve`. -/
inductive LoopRes where
  | success (v : PyVal)
  | propagate (e : PyErr)
  | exhausted (attempts : List String)

/-- Embedding of the loop in `Config.resolve`: iterate over the readers
that are `BaseConfigReader` instances (nested `Config`s are filtered
out); a successful reader returns immediately; an
`UnassignedOptionError` has its attempt messages appended to the
accumulator (`attempts += e.attempts`; a `None` attempts field would be
a `TypeError`); any other exception propagates. -/
def readerLoop (env : EnvMap) (o : ConfigOption) : CfgList → List String → LoopRes
  | CfgList.nil, att => LoopRes.exhausted att
  | CfgList.cons r rest, att =>
      if isBaseReader r then
        match baseResolve env r o with
        | Except.ok v => LoopRes.success v
        | Except.error (PyErr.unassignedOptionError _ a) =>
            match a with
            | Option.some msgs => readerLoop env o rest (att ++ msgs)
            | Option.none => LoopRes.propagate PyErr.typeError
        | Except.error e => LoopRes.propagate e
      else readerLoop env o rest att

/-- Embedding of `Config.resolve(option)` (with the reader dispatch of
`BoundOption.resolve`): first the identity membership guard
(`option not in self._options`), then the reader loop, then the default
fallback (`if option.default is not None`), and finally
`UnassignedOptionError` carrying the accumulated attempt messages. -/
def resolveC (env : EnvMap) (c : Cfg) (o : ConfigOption) : Except PyErr PyVal :=
  match c with
  | Cfg.config opts readers _ =>
      if opts.any (fun p => sameIdentity p o) then
        match readerLoop env o readers [] with
        | LoopRes.success v => Except.ok v
        | LoopRes.propagate e => Except.error e
        | LoopRes.exhausted att =>
            if o.default = PyVal.none then
              Except.error (PyErr.unassignedOptionError
                (Option.some (o.name ++ " - could not be resolved")) (Option.some att))
            else Except.ok o.default
      else
        Except.error (PyErr.configError
          (Option.some ("Reader does not have option " ++ o.name)) Option.none)
  | r => baseResolve env r o

/-- Outcome of the reversed reader scan inside `Config.get_option`. -/
inductive TryRes where
  | found (o : ConfigOption) (owner : Cfg)
  | exhausted
  | failed (e : PyErr)

mutual
/-- Embedding of `Config.get_option` together with
`BaseConfigReader.get_option`.  A `Config` first scans its own option
set; on a miss it walks its readers in REVERSED order, catching only
`UndefinedOptionError` (raised by base readers) and letting every other
exception propagate; exhaustion raises `UnassignedOptionError` with the
message `'Undefined option <name>'` and no attempts.  A base reader
always raises `UndefinedOptionError()`.  A successful lookup returns the
option paired with the `Config` that owns it (the `BoundOption`). -/
def getOption : Cfg → String → Option String → Except PyErr (ConfigOption × Cfg)
  | Cfg.config opts readers s, n, sec =>
      match findOption opts n sec with
      | Option.some o => Except.ok (o, Cfg.config opts readers s)
      | Option.none =>
          match tryRev readers n sec with
          | TryRes.found o owner => Except.ok (o, owner)
          | TryRes.exhausted =>
              Except.error (PyErr.unassignedOptionError
                (Option.some ("Undefined option " ++ n)) Option.none)
          | TryRes.failed e => Except.error e
  | Cfg.envReader _, _, _ =>
      Except.error (PyErr.undefinedOptionError Option.none Option.none)
  | Cfg.iniReader _ _, _, _ =>
      Except.error (PyErr.undefinedOptionError Option.none Option.none)

/-- The reversed loop of `Config.get_option`: for `readers = [r1, ..., rn]`
the iteration order is `rn, ..., r1`, so the tail of the list is tried
before the head. -/
def tryRev : CfgList → String → Option String → TryRes
  | CfgList.nil, _, _ => TryRes.exhausted
  | CfgList.cons r rest, n, sec =>
      match tryRev rest n sec with
      | TryRes.exhausted =>
          match getOption r n sec with
          | Except.ok b => TryRes.found b.1 b.2
          | Except.error (PyErr.undefinedOptionError _ _) => TryRes.exhausted
          | Except.error e => TryRes.failed e
      | other => other
end

/-- Embedding of the tail of `Config.__getitem__` once a `BoundOption`
is in hand: return the processed explicit value when it is not `None`;
otherwise resolve through the owning config, and on a `ConfigError`
fall back to the option default when that is not `None`, re-raising the
exception otherwise (iterating a `None` `attempts` field would be a
`TypeError`). -/
def getItemBound (env : EnvMap) (o : ConfigOption) (owner : Cfg) : Except PyErr PyVal :=
  if o.value = PyVal.none then
    match resolveC env owner o with
    | Except.ok v => Except.ok v
    | Except.error e =>
        if isConfigError e then
          if o.default = PyVal.none then
            match attemptsOf e with
            | Option.some _ => Except.error e
            | Option.none => Except.error PyErr.typeError
          else Except.ok o.default
        else Except.error e
  else Except.ok o.value

/-- Embedding of `config[(name, section)]`: look the identity up through
the reader chain, then resolve the bound option. -/
def getItemTuple (env : EnvMap) (c : Cfg) (k : String × Option String) :
    Except PyErr PyVal :=
  match c with
  | Cfg.config _ _ _ =>
      match getOption c k.1 k.2 with
      | Except.ok b => getItemBound env b.1 b.2
      | Except.error e => Except.error e
  | _ => Except.error PyErr.typeError

/-- Embedding of `config[name]`: a bare name is looked up in the
config's own current default section. -/
def getItemStr (env : EnvMap) (c : Cfg) (n : String) : Except PyErr PyVal :=
  match c with
  | Cfg.config opts rs s => getItemTuple env (Cfg.config opts rs s) (n, s)
  | _ => Except.error PyErr.typeError

/-- Embedding of `config[option]` as used by `Config.cache`: the
argument is a plain `Option` instance, so when its explicit value is
`None` the call `item.resolve()` raises `AttributeError` (a plain
`Option` has no `resolve` method), which is not a `ConfigError` and
propagates. -/
def getItemDirect (o : ConfigOption) : Except PyErr PyVal :=
  if o.value = PyVal.none then Except.error PyErr.attributeError
  else Except.ok o.value

/-- The per-option iteration of `Config.cache`, aborting at the first
propagated exception. -/
def cacheLoop : List ConfigOption → Except PyErr (List ((Option String × String) × PyVal))
  | [] => Except.ok []
  | o :: os =>
      match getItemDirect o with
      | Except.error e => Except.error e
      | Except.ok v =>
          match cacheLoop os with
          | Except.error e => Except.error e
          | Except.ok rest => Except.ok (((o.section?, o.name), v) :: rest)

/-- Embedding of `Config.cache`: the `section -> name -> value` snapshot
built from the config's own option set (reader classes expose an empty
option set). -/
def cacheC : Cfg → Except PyErr (List ((Option String × String) × PyVal))
  | Cfg.config opts _ _ => cacheLoop opts
  | _ => Except.ok []

mutual
/-- Embedding of `BaseConfig.get_flat`: a base reader contributes no
options and itself as the only reader; a `Config` starts from its own
option set and walks its readers in order, concatenating the flattened
reader lists and unioning the flattened option sets. -/
def getFlat : Cfg → List ConfigOption × CfgList
  | Cfg.config opts readers _ => getFlatList readers opts
  | c => ([], CfgList.cons c CfgList.nil)

/-- The reader loop of `get_flat`, threading the accumulated option set
left to right. -/
def getFlatList : CfgList → List ConfigOption → List ConfigOption × CfgList
  | CfgList.nil, opts => (opts, CfgList.nil)
  | CfgList.cons r rest, opts =>
      let p := getFlat r
      let q := getFlatList rest (setUnion opts p.1)
      (q.1, appendC p.2 q.2)
end

/-- Embedding of `Config.flatten`: replace the option set and reader
list by the flattened ones (reader classes are left unchanged; the
source only ever flattens `Config` instances). -/
def flattenC : Cfg → Cfg
  | Cfg.config opts readers s =>
      let p := getFlat (Cfg.config opts readers s)
      Cfg.config p.1 p.2 s
  | c => c

/-- Embedding of `IniConfigReader.__init__` after the file has been
parsed: `sections` wins when given; otherwise a single `section` is
wrapped in a list; `ConfigError` is raised only when NEITHER is given. -/
def iniInit (sec : Option String) (secs : Option (List String)) :
    Except PyErr (List String) :=
  match secs with
  | Option.some ss => Except.ok ss
  | Option.none =>
      match sec with
      | Option.some s => Except.ok [s]
      | Option.none =>
          Except.error (PyErr.configError
            (Option.some "Need to configure ONLY one of \"section\" or \"sections\"")
            Option.none)

/-- Whether a lookup failed with `UndefinedOptionError`. -/
def isUndefinedErr : Except PyErr PyVal → Bool
  | Except.error (PyErr.undefinedOptionError _ _) => true
  | _ => false

/-- The `attempts` field of a failed lookup. -/
def getAttempts : Except PyErr PyVal → Option (List String)
  | Except.error e => attemptsOf e
  | _ => Option.none

mutual
/-- Whether an identity is declared anywhere in the reader chain: in the
config's own option set or, recursively, in a nested `Config`; base
readers declare nothing. -/
def declares : Cfg → String → Option String → Bool
  | Cfg.config opts readers _, n, s =>
      (findOption opts n s).isSome || declaresL readers n s
  | _, _, _ => false

/-- Chain version of `declares` over a reader list. -/
def declaresL : CfgList → String → Option String → Bool
  | CfgList.nil, _, _ => false
  | CfgList.cons r rest, n, s => declares r n s || declaresL rest n s
end

/-- Whether every element of a reader list is a base reader (the state
`flatten` leaves behind). -/
def allBaseL : CfgList → Bool
  | CfgList.nil => true
  | CfgList.cons r rest => isBaseReader r && allBaseL rest

/-! Helper lemmas shared by the claim theorems. -/

theorem truthy_ne_none {v : PyVal} (h : truthy v = true) : v ≠ PyVal.none := by
  intro he
  subst he
  simp [truthy] at h

theorem sectEq_refl (x : Option String) : sectEq x x = true := by
  cases x <;> simp [sectEq]

theorem sectEq_some_right {x : Option String} {b : String}
    (h : sectEq x (Option.some b) = true) : x = Option.some b := by
  cases x with
  | none => simp [sectEq] at h
  | some a => simp [sectEq] at h; rw [h]

theorem sameIdentity_refl (o : ConfigOption) : sameIdentity o o = true := by
  simp [sameIdentity, sectEq_refl]

theorem findOption_any {opts : List ConfigOption} {n : String} {s : Option String}
    {o : ConfigOption} (h : findOption opts n s = Option.some o) :
    opts.any (fun p => sameIdentity p o) = true := by
  have hmem : o ∈ opts := List.mem_of_find?_eq_some h
  exact List.any_eq_true.mpr ⟨o, hmem, sameIdentity_refl o⟩

theorem findOption_matches {opts : List ConfigOption} {n : String} {s : Option String}
    {o : ConfigOption} (h : findOption opts n s = Option.some o) :
    o.name = n ∧ sectEq o.section? s = true := by
  have hp := List.find?_some h
  simp only [Bool.and_eq_true, beq_iff_eq] at hp
  exact hp

theorem getOption_config_local {opts : List ConfigOption} (rs : CfgList)
    (cs : Option String) {n : String} {s : Option String} {o : ConfigOption}
    (h : findOption opts n s = Option.some o) :
    getOption (Cfg.config opts rs cs) n s = Except.ok (o, Cfg.config opts rs cs) := by
  simp [getOption, h]

/-! Claim C2 -/

/-- Claim C2, counterexample.  `A` declares `("n", "s")` with value
`"v1"`, `B` declares the same identity with value `0`; because `0` is
falsy, `Option.value` treats the explicit value as absent and the lookup
on `A + B` raises `UnassignedOptionError` instead of returning `0`. -/
theorem c2_counterexample :
    getItemTuple []
      (addC
        (Cfg.config [mkOption "n" PyVal.none (PyVal.str "v1") Option.none
          (Option.some "s") Option.none] CfgList.nil Option.none)
        (Cfg.config [mkOption "n" PyVal.none (PyVal.int 0) Option.none
          (Option.some "s") Option.none] CfgList.nil Option.none))
      ("n", Option.some "s")
      = Except.error (PyErr.unassignedOptionError
          (Option.some "n - could not be resolved") (Option.some []))
    ∧ getItemTuple []
      (addC
        (Cfg.config [mkOption "n" PyVal.none (PyVal.str "v1") Option.none
          (Option.some "s") Option.none] CfgList.nil Option.none)
        (Cfg.config [mkOption "n" PyVal.none (PyVal.int 0) Option.none
          (Option.some "s") Option.none] CfgList.nil Option.none))
      ("n", Option.some "s")
      ≠ Except.ok (PyVal.int 0) := by
  constructor
  · decide
  · decide

/-- Claim C2, amended.  If `B` declares identity `(n, s)` with a TRUTHY
explicit value `v2` and no processor, then looking `(n, s)` up on
`A + B` returns `v2`, whatever `A` and the attached readers are (the
right-hand operand's definition wins). -/
theorem c2_merge_right_wins (env : EnvMap) (a : Cfg) (opts2 : List ConfigOption)
    (rs2 : CfgList) (cs2 : Option String) (n : String) (s : Option String)
    (o2 : ConfigOption)
    (hfind : findOption opts2 n s = Option.some o2)
    (hp : o2.processor = fun x => x)
    (ht : truthy o2.val = true) :
    getItemTuple env (addC a (Cfg.config opts2 rs2 cs2)) (n, s) = Except.ok o2.val := by
  have hB := getOption_config_local rs2 cs2 hfind
  have hval : o2.value = o2.val := by
    simp [ConfigOption.value, ht, hp]
  have hne : o2.val ≠ PyVal.none := truthy_ne_none ht
  have h2 : tryRev (CfgList.cons a (CfgList.cons (Cfg.config opts2 rs2 cs2) CfgList.nil)) n s
      = TryRes.found o2 (Cfg.config opts2 rs2 cs2) := by
    simp only [tryRev, hB]
  simp only [addC, getItemTuple, getOption, findOption, List.find?, h2, getItemBound, hval]
  rw [if_neg hne]

/-- Claim C2, witness for the amended theorem. -/
theorem c2_witness :
    getItemTuple []
      (addC
        (Cfg.config [mkOption "n" PyVal.none (PyVal.str "v1") Option.none
          (Option.some "s") Option.none] CfgList.nil Option.none)
        (Cfg.config [mkOption "n" PyVal.none (PyVal.str "v2") Option.none
          (Option.some "s") Option.none] CfgList.nil Option.none))
      ("n", Option.some "s") = Except.ok (PyVal.str "v2") :=
  c2_merge_right_wins [] _ _ CfgList.nil Option.none "n" (Option.some "s")
    (mkOption "n" PyVal.none (PyVal.str "v2") Option.none (Option.some "s") Option.none)
    rfl rfl (by decide)

/-! Claim C4 -/

/-- Claim C4, counterexample.  The option `x` has the explicit value `0`
and an environment reader whose snapshot defines `X = "42"`; because `0`
is falsy the explicit value is ignored and the reader IS consulted: the
lookup returns `"42"`, not `processor(0) = 0`. -/
theorem c4_counterexample :
    getItemStr [("X", "42")]
      (Cfg.config [mkOption "x" PyVal.none (PyVal.int 0) Option.none Option.none Option.none]
        (CfgList.cons (Cfg.envReader "") CfgList.nil) Option.none) "x"
      = Except.ok (PyVal.str "42")
    ∧ getItemStr [("X", "42")]
      (Cfg.config [mkOption "x" PyVal.none (PyVal.int 0) Option.none Option.none Option.none]
        (CfgList.cons (Cfg.envReader "") CfgList.nil) Option.none) "x"
      ≠ Except.ok (PyVal.int 0) := by
  constructor
  · decide
  · decide

/-- Claim C4, amended.  For an option whose computed `value` property is
not `None` (a truthy explicit value whose processed form is not `None`),
the lookup returns `processor(explicit value)` and no reader is ever
consulted: the result does not depend on the environment or on the
attached readers applied. -/
theorem c4_explicit_value_wins (env : EnvMap) (opts : List ConfigOption) (rs : CfgList)
    (cs : Option String) (n : String) (s : Option String) (o : ConfigOption)
    (hfind : findOption opts n s = Option.some o)
    (hv : o.value ≠ PyVal.none) :
    getItemTuple env (Cfg.config opts rs cs) (n, s) = Except.ok o.value := by
  have hg := getOption_config_local rs cs hfind
  simp [getItemTuple, hg, getItemBound, hv]

/-- Claim C4, witness: an explicit value `2` with an `int`-like processor
wins over an environment snapshot that also defines the option. -/
theorem c4_witness :
    getItemTuple [("OPTION2", "33")]
      (Cfg.config [mkOption "option2" PyVal.none (PyVal.int 2) Option.none
        Option.none Option.none]
        (CfgList.cons (Cfg.envReader "") CfgList.nil) Option.none)
      ("option2", Option.none) = Except.ok (PyVal.int 2) :=
  c4_explicit_value_wins [("OPTION2", "33")] _ _ Option.none "option2" Option.none
    (mkOption "option2" PyVal.none (PyVal.int 2) Option.none Option.none Option.none)
    rfl (by decide)

/-! Claim C7 -/

/-- Claim C7, counterexample.  The option `x` has the default `0`, no
explicit value and no reader; because `0` is falsy, `Option.default`
returns `None` and the lookup raises `UnassignedOptionError` instead of
returning `processor(0) = 0`. -/
theorem c7_counterexample :
    getItemStr []
      (Cfg.config [mkOption "x" (PyVal.int 0) PyVal.none Option.none Option.none Option.none]
        CfgList.nil Option.none) "x"
      = Except.error (PyErr.unassignedOptionError
          (Option.some "x - could not be resolved") (Option.some []))
    ∧ getItemStr []
      (Cfg.config [mkOption "x" (PyVal.int 0) PyVal.none Option.none Option.none Option.none]
        CfgList.nil Option.none) "x"
      ≠ Except.ok (PyVal.int 0) := by
  constructor
  · decide
  · decide

/-- Claim C7, amended.  For an option whose computed `value` property is
`None`, whose reader loop exhausts without producing a value, and whose
computed `default` property is not `None` (a truthy default whose
processed form is not `None`), the lookup returns `processor(default)`. -/
theorem c7_default_fallback (env : EnvMap) (opts : List ConfigOption) (rs : CfgList)
    (cs : Option String) (n : String) (s : Option String) (o : ConfigOption)
    (att : List String)
    (hfind : findOption opts n s = Option.some o)
    (hv : o.value = PyVal.none)
    (hloop : readerLoop env o rs [] = LoopRes.exhausted att)
    (hd : o.default ≠ PyVal.none) :
    getItemTuple env (Cfg.config opts rs cs) (n, s) = Except.ok o.default := by
  have hg := getOption_config_local rs cs hfind
  have hmem := findOption_any hfind
  simp [getItemTuple, hg, getItemBound, hv, resolveC, hmem, hloop, hd]

/-- Claim C7, witness: a truthy default `1` with no readers resolves to
itself. -/
theorem c7_witness :
    getItemTuple []
      (Cfg.config [mkOption "option1" (PyVal.int 1) PyVal.none Option.none
        Option.none Option.none] CfgList.nil Option.none)
      ("option1", Option.none) = Except.ok (PyVal.int 1) :=
  c7_default_fallback [] _ CfgList.nil Option.none "option1" Option.none
    (mkOption "option1" (PyVal.int 1) PyVal.none Option.none Option.none Option.none)
    [] rfl (by decide) rfl (by decide)

/-! Claim C9 -/

/-- Claim C9, counterexample.  The option `y` is declared with no value,
no default and NO readers: the lookup does raise `UnassignedOptionError`,
but its `attempts` list is EMPTY, refuting the claim's "at least one
message". -/
theorem c9_counterexample :
    getItemStr []
      (Cfg.config [mkOption "y" PyVal.none PyVal.none Option.none Option.none Option.none]
        CfgList.nil Option.none) "y"
      = Except.error (PyErr.unassignedOptionError
          (Option.some "y - could not be resolved") (Option.some []))
    ∧ getAttempts (getItemStr []
      (Cfg.config [mkOption "y" PyVal.none PyVal.none Option.none Option.none Option.none]
        CfgList.nil Option.none) "y") = Option.some [] := by
  constructor
  · decide
  · decide

/-- Claim C9, amended.  For a declared option whose computed `value` and
`default` properties are both `None`, a lookup whose reader loop
exhausts with accumulated attempt messages `att` fails with
`UnassignedOptionError` carrying exactly `att` (the full accumulated
list, one message per failed reader attempt; it is empty when no base
reader is attached). -/
theorem c9_unassigned_attempts (env : EnvMap) (opts : List ConfigOption) (rs : CfgList)
    (cs : Option String) (n : String) (s : Option String) (o : ConfigOption)
    (att : List String)
    (hfind : findOption opts n s = Option.some o)
    (hv : o.value = PyVal.none)
    (hd : o.default = PyVal.none)
    (hloop : readerLoop env o rs [] = LoopRes.exhausted att) :
    getItemTuple env (Cfg.config opts rs cs) (n, s)
      = Except.error (PyErr.unassignedOptionError
          (Option.some (o.name ++ " - could not be resolved")) (Option.some att)) := by
  have hg := getOption_config_local rs cs hfind
  have hmem := findOption_any hfind
  simp [getItemTuple, hg, getItemBound, hv, resolveC, hmem, hloop, hd,
    isConfigError, attemptsOf]

/-- Claim C9, witness: one failing environment reader contributes
exactly one attempt message, carried by the raised error. -/
theorem c9_witness :
    getItemTuple []
      (Cfg.config [mkOption "x" PyVal.none PyVal.none Option.none Option.none Option.none]
        (CfgList.cons (Cfg.envReader "") CfgList.nil) Option.none)
      ("x", Option.none)
      = Except.error (PyErr.unassignedOptionError
          (Option.some "x - could not be resolved")
          (Option.some ["EnvConfigReader | searching for x | could not find X"])) :=
  c9_unassigned_attempts [] _ _ Option.none "x" Option.none
    (mkOption "x" PyVal.none PyVal.none Option.none Option.none Option.none)
    ["EnvConfigReader | searching for x | could not find X"]
    rfl (by decide) (by decide) rfl

/-! Claim C8 -/

/-- Claim C8.  `IniConfigReader.__init__` raises `ConfigError` when
NEITHER `section` nor `sections` is supplied and accepts exactly one of
them; but, contrary to the claim (and to its own error message), it also
ACCEPTS both at once, silently letting `sections` win. -/
theorem c8_ini_init_both_accepted :
    iniInit Option.none Option.none
      = Except.error (PyErr.configError
          (Option.some "Need to configure ONLY one of \"section\" or \"sections\"")
          Option.none)
    ∧ iniInit (Option.some "a") Option.none = Except.ok ["a"]
    ∧ iniInit Option.none (Option.some ["b"]) = Except.ok ["b"]
    ∧ iniInit (Option.some "a") (Option.some ["b"]) = Except.ok ["b"] := by
  refine ⟨?_, ?_, ?_, ?_⟩ <;> decide

/-! Claim C3 -/

/-- Claim C3, counterexample.  Declaring `n = 1` and then re-declaring
`n = 2` with the same identity leaves the FIRST option in place
(`set.add` is a no-op on an equal element), so the lookup returns `1`,
not the later-declared `2`. -/
theorem c3_counterexample :
    getItemStr []
      (optionB (optionB (Cfg.config [] CfgList.nil Option.none) "n" PyVal.none (PyVal.int 1)
        Option.none Option.none Option.none) "n" PyVal.none (PyVal.int 2)
        Option.none Option.none Option.none) "n"
      = Except.ok (PyVal.int 1)
    ∧ getItemStr []
      (optionB (optionB (Cfg.config [] CfgList.nil Option.none) "n" PyVal.none (PyVal.int 1)
        Option.none Option.none Option.none) "n" PyVal.none (PyVal.int 2)
        Option.none Option.none Option.none) "n"
      ≠ Except.ok (PyVal.int 2) := by
  constructor
  · decide
  · decide

/-- Claim C3, amended.  Inserting an option whose `(name, section)`
identity is already present leaves the option set UNCHANGED (the earlier
option is retained and the later-declared definition is dropped); only
the config's default-section attribute is updated. -/
theorem c3_duplicate_insert_noop (opts : List ConfigOption) (rs : CfgList)
    (cs : Option String) (n : String) (d v : PyVal) (p : Option (PyVal → PyVal))
    (sec desc : Option String)
    (h : opts.any (fun q => sameIdentity q
        (mkOption n d v p (if sec.isSome then sec else cs) desc)) = true) :
    optionB (Cfg.config opts rs cs) n d v p sec desc
      = Cfg.config opts rs (if sec.isSome then sec else cs) := by
  simp [optionB, setAdd, h]

/-- Claim C3, witness for the amended theorem. -/
theorem c3_witness :
    optionB
      (Cfg.config [mkOption "n" PyVal.none (PyVal.int 1) Option.none Option.none Option.none]
        CfgList.nil Option.none) "n" PyVal.none (PyVal.int 2) Option.none Option.none Option.none
      = Cfg.config [mkOption "n" PyVal.none (PyVal.int 1) Option.none Option.none Option.none]
          CfgList.nil Option.none :=
  c3_duplicate_insert_noop
    [mkOption "n" PyVal.none (PyVal.int 1) Option.none Option.none Option.none]
    CfgList.nil Option.none "n" PyVal.none (PyVal.int 2) Option.none Option.none Option.none
    (by decide)

/-! Claim C1 -/

mutual
/-- An identity declared nowhere in the chain makes `get_option` raise:
`UndefinedOptionError` from a base reader, and `UnassignedOptionError`
with the message `'Undefined option <name>'` from a `Config`. -/
theorem undeclared_getOption (c : Cfg) (n : String) (s : Option String)
    (h : declares c n s = false) :
    getOption c n s = (if isBaseReader c
      then Except.error (PyErr.undefinedOptionError Option.none Option.none)
      else Except.error (PyErr.unassignedOptionError
        (Option.some ("Undefined option " ++ n)) Option.none)) := by
  cases c with
  | config opts rs cs =>
      simp only [declares, Bool.or_eq_false_iff] at h
      obtain ⟨h1, h2⟩ := h
      have hf : findOption opts n s = Option.none := by
        cases hx : findOption opts n s with
        | none => rfl
        | some o => rw [hx] at h1; simp at h1
      have ht := undeclared_tryRev rs n s h2
      cases ht with
      | inl he => simp [getOption, hf, he, isBaseReader]
      | inr hfail => simp [getOption, hf, hfail, isBaseReader]
  | envReader p => simp [getOption, isBaseReader]
  | iniReader ss d => simp [getOption, isBaseReader]

/-- Reader-list version of `undeclared_getOption`: the reversed scan
either exhausts (all raised `UndefinedOptionError`) or propagates the
`UnassignedOptionError` of a nested `Config`. -/
theorem undeclared_tryRev (l : CfgList) (n : String) (s : Option String)
    (h : declaresL l n s = false) :
    tryRev l n s = TryRes.exhausted
    ∨ tryRev l n s = TryRes.failed
        (PyErr.unassignedOptionError (Option.some ("Undefined option " ++ n)) Option.none) := by
  cases l with
  | nil => left; rfl
  | cons r rest =>
      simp only [declaresL, Bool.or_eq_false_iff] at h
      obtain ⟨h1, h2⟩ := h
      have hr := undeclared_getOption r n s h1
      have ht := undeclared_tryRev rest n s h2
      cases ht with
      | inl he =>
          cases hc : isBaseReader r with
          | true =>
              rw [hc] at hr
              simp only [if_true] at hr
              left
              simp [tryRev, he, hr]
          | false =>
              rw [hc] at hr
              simp only [Bool.false_eq_true, if_false] at hr
              right
              simp [tryRev, he, hr]
      | inr hfail =>
          right
          simp [tryRev, hfail]
end

/-- Claim C1, amended.  Looking up an identity that no `Config` in the
chain declares fails with `UnassignedOptionError` (message
`'Undefined option <name>'`, no attempts), NOT with
`UndefinedOptionError`: the `UndefinedOptionError` raised by base
readers is always caught inside the reversed reader scan, and the final
`raise` in `Config.get_option` builds an `UnassignedOptionError`. -/
theorem c1_undeclared_unassigned (env : EnvMap) (opts : List ConfigOption) (rs : CfgList)
    (cs : Option String) (n : String) (s : Option String)
    (h : declares (Cfg.config opts rs cs) n s = false) :
    getItemTuple env (Cfg.config opts rs cs) (n, s)
      = Except.error (PyErr.unassignedOptionError
          (Option.some ("Undefined option " ++ n)) Option.none) := by
  have hg := undeclared_getOption (Cfg.config opts rs cs) n s h
  simp only [isBaseReader, Bool.false_eq_true, if_false] at hg
  simp [getItemTuple, hg]

/-- Claim C1, witness for the amended theorem. -/
theorem c1_witness :
    getItemTuple []
      (Cfg.config [] (CfgList.cons (Cfg.envReader "pre") CfgList.nil) Option.none)
      ("opt", Option.none)
      = Except.error (PyErr.unassignedOptionError
          (Option.some "Undefined option opt") Option.none) :=
  c1_undeclared_unassigned [] [] (CfgList.cons (Cfg.envReader "pre") CfgList.nil)
    Option.none "opt" Option.none (by decide)

/-- Claim C1, counterexample.  A chain that declares `x` nowhere (one
`Config`, one environment base reader) fails with
`UnassignedOptionError`, not `UndefinedOptionError`. -/
theorem c1_counterexample :
    getItemStr []
      (Cfg.config [] (CfgList.cons (Cfg.envReader "") CfgList.nil) Option.none) "x"
      = Except.error (PyErr.unassignedOptionError
          (Option.some "Undefined option x") Option.none)
    ∧ isUndefinedErr (getItemStr []
      (Cfg.config [] (CfgList.cons (Cfg.envReader "") CfgList.nil) Option.none) "x") = false := by
  constructor
  · decide
  · decide

/-! Claim C5 -/

/-- The reversed reader scan never reports a propagated
`UndefinedOptionError`: that error kind is caught and turned into
continuation of the scan. -/
theorem tryRev_failed_not_undefined (l : CfgList) (n : String) (s : Option String) :
    ∀ e, tryRev l n s = TryRes.failed e →
      ∀ m a, e ≠ PyErr.undefinedOptionError m a := by
  cases l with
  | nil =>
      intro e h
      simp [tryRev] at h
  | cons r rest =>
      intro e h m a
      simp only [tryRev] at h
      cases ht : tryRev rest n s with
      | exhausted =>
          rw [ht] at h
          cases hg : getOption r n s with
          | ok b => rw [hg] at h; simp at h
          | error e2 =>
              rw [hg] at h
              cases e2 with
              | undefinedOptionError m2 a2 => simp at h
              | configError m2 a2 =>
                  simp only [TryRes.failed.injEq] at h
                  subst h
                  simp
              | unassignedOptionError m2 a2 =>
                  simp only [TryRes.failed.injEq] at h
                  subst h
                  simp
              | attributeError =>
                  simp only [TryRes.failed.injEq] at h
                  subst h
                  simp
              | typeError =>
                  simp only [TryRes.failed.injEq] at h
                  subst h
                  simp
      | found o own => rw [ht] at h; simp at h
      | failed e2 =>
          rw [ht] at h
          simp only [TryRes.failed.injEq] at h
          subst h
          exact tryRev_failed_not_undefined rest n s e2 ht m a

/-- `Config.get_option` never raises `UndefinedOptionError`: a local hit
returns, exhaustion raises `UnassignedOptionError`, and a propagated
error is never of that kind. -/
theorem getOption_config_not_undefined (opts : List ConfigOption) (rs : CfgList)
    (cs : Option String) (n : String) (s : Option String) (m : Option String)
    (a : Option (List String)) :
    getOption (Cfg.config opts rs cs) n s
      ≠ Except.error (PyErr.undefinedOptionError m a) := by
  intro h
  simp only [getOption] at h
  cases hf : findOption opts n s with
  | some o => rw [hf] at h; simp at h
  | none =>
      rw [hf] at h
      cases ht : tryRev rs n s with
      | found o own => rw [ht] at h; simp at h
      | exhausted => rw [ht] at h; simp at h
      | failed e =>
          rw [ht] at h
          simp only [Except.error.injEq] at h
          exact tryRev_failed_not_undefined rs n s e ht m a h

/-- Merging puts the right operand in charge: when the right operand of
`+` is a `Config`, it is consulted first in the reversed scan, and —
because a `Config` lookup never raises the caught `UndefinedOptionError`
— its outcome is the outcome of the whole merged lookup.  The left
operand is never reached. -/
theorem getOption_add_right (x : Cfg) (opts : List ConfigOption) (rs : CfgList)
    (cs : Option String) (n : String) (s : Option String) :
    getOption (Cfg.config []
        (CfgList.cons x (CfgList.cons (Cfg.config opts rs cs) CfgList.nil)) Option.none) n s
      = getOption (Cfg.config opts rs cs) n s := by
  cases hB : getOption (Cfg.config opts rs cs) n s with
  | ok b =>
      have h2 : tryRev (CfgList.cons x (CfgList.cons (Cfg.config opts rs cs) CfgList.nil)) n s
          = TryRes.found b.1 b.2 := by
        simp only [tryRev, hB]
      simp [getOption, findOption, h2]
  | error e =>
      cases e with
      | undefinedOptionError m a => exact absurd hB (getOption_config_not_undefined opts rs cs n s m a)
      | configError m a =>
          have h2 : tryRev (CfgList.cons x (CfgList.cons (Cfg.config opts rs cs) CfgList.nil)) n s
              = TryRes.failed (PyErr.configError m a) := by
            simp only [tryRev, hB]
          simp [getOption, findOption, h2]
      | unassignedOptionError m a =>
          have h2 : tryRev (CfgList.cons x (CfgList.cons (Cfg.config opts rs cs) CfgList.nil)) n s
              = TryRes.failed (PyErr.unassignedOptionError m a) := by
            simp only [tryRev, hB]
          simp [getOption, findOption, h2]
      | attributeError =>
          have h2 : tryRev (CfgList.cons x (CfgList.cons (Cfg.config opts rs cs) CfgList.nil)) n s
              = TryRes.failed PyErr.attributeError := by
            simp only [tryRev, hB]
          simp [getOption, findOption, h2]
      | typeError =>
          have h2 : tryRev (CfgList.cons x (CfgList.cons (Cfg.config opts rs cs) CfgList.nil)) n s
              = TryRes.failed PyErr.typeError := by
            simp only [tryRev, hB]
          simp [getOption, findOption, h2]

/-- Claim C5, confirmed.  For arbitrary configs `a`, `b` and a `Config`
`c`, resolving any `(name, section)` identity through `(a+b)+c` and
through `a+(b+c)` gives identical results (both reduce to the lookup on
`c`, because the rightmost operand of a merge is consulted first and a
`Config` consultation either settles the lookup or propagates). -/
theorem c5_add_assoc_resolution (env : EnvMap) (a b : Cfg) (co : List ConfigOption)
    (cr : CfgList) (ccs : Option String) (n : String) (s : Option String) :
    getItemTuple env (addC (addC a b) (Cfg.config co cr ccs)) (n, s)
      = getItemTuple env (addC a (addC b (Cfg.config co cr ccs))) (n, s) := by
  simp only [addC, getItemTuple, getOption_add_right]

/-! Claim C6 -/

/-- Appending reader lists multiplies the all-base-readers predicate. -/
theorem allBase_appendC (x y : CfgList) :
    allBaseL (appendC x y) = (allBaseL x && allBaseL y) := by
  cases x with
  | nil => simp [appendC, allBaseL]
  | cons r rest => simp [appendC, allBaseL, allBase_appendC rest y, Bool.and_assoc]

/-- `get_flat` on a base reader yields no options and the reader
itself. -/
theorem getFlat_base {r : Cfg} (h : isBaseReader r = true) :
    getFlat r = ([], CfgList.cons r CfgList.nil) := by
  cases r with
  | config o rs s => simp [isBaseReader] at h
  | envReader p => rfl
  | iniReader ss d => rfl

mutual
/-- Every reader collected by `get_flat` is a base reader: nested
`Config`s are dissolved, never collected. -/
theorem getFlat_allBase (c : Cfg) : allBaseL (getFlat c).2 = true := by
  cases c with
  | config opts rs s => simpa [getFlat] using getFlatList_allBase rs opts
  | envReader p => simp [getFlat, allBaseL, isBaseReader]
  | iniReader ss d => simp [getFlat, allBaseL, isBaseReader]

/-- Reader-list version of `getFlat_allBase`. -/
theorem getFlatList_allBase (l : CfgList) (opts : List ConfigOption) :
    allBaseL (getFlatList l opts).2 = true := by
  cases l with
  | nil => simp [getFlatList, allBaseL]
  | cons r rest =>
      have h1 := getFlat_allBase r
      have h2 := getFlatList_allBase rest (setUnion opts (getFlat r).1)
      simp [getFlatList, allBase_appendC, h1, h2]
end

/-- `get_flat` is the identity on an already-flat state: when every
reader is a base reader, the walk returns the accumulated options and
the reader list unchanged. -/
theorem getFlatList_of_base (l : CfgList) (opts : List ConfigOption)
    (h : allBaseL l = true) : getFlatList l opts = (opts, l) := by
  cases l with
  | nil => rfl
  | cons r rest =>
      simp only [allBaseL, Bool.and_eq_true] at h
      obtain ⟨h1, h2⟩ := h
      simp [getFlatList, getFlat_base h1, setUnion,
        getFlatList_of_base rest opts h2, appendC]

/-- Claim C6, confirmed.  `flatten` is idempotent on a `Config`: a
second `flatten` reproduces the state left by the first one (after the
first call every reader is a base reader, contributing itself and no
options), and consequently the `cache()` snapshots agree. -/
theorem c6_flatten_idempotent (opts : List ConfigOption) (rs : CfgList) (s : Option String) :
    flattenC (flattenC (Cfg.config opts rs s)) = flattenC (Cfg.config opts rs s)
    ∧ cacheC (flattenC (flattenC (Cfg.config opts rs s)))
        = cacheC (flattenC (Cfg.config opts rs s)) := by
  have hb : allBaseL (getFlatList rs opts).2 = true := by
    simpa [getFlat] using getFlat_allBase (Cfg.config opts rs s)
  have hmain : flattenC (flattenC (Cfg.config opts rs s)) = flattenC (Cfg.config opts rs s) := by
    simp only [flattenC, getFlat]
    rw [getFlatList_of_base _ _ hb]
  exact ⟨hmain, by rw [hmain]⟩

/-! Claim C10 -/

mutual
/-- Any option returned by `get_option` carries exactly the requested
section: the local scan filters on it and the chain walk preserves it. -/
theorem getOption_sect (c : Cfg) (n : String) (s : Option String) (o : ConfigOption)
    (own : Cfg) (h : getOption c n s = Except.ok (o, own)) : sectEq o.section? s = true := by
  cases c with
  | config opts rs cs =>
      simp only [getOption] at h
      cases hf : findOption opts n s with
      | some o2 =>
          rw [hf] at h
          simp only [Except.ok.injEq, Prod.mk.injEq] at h
          obtain ⟨h1, h2⟩ := h
          subst h1
          exact (findOption_matches hf).2
      | none =>
          rw [hf] at h
          cases ht : tryRev rs n s with
          | found o2 own2 =>
              rw [ht] at h
              simp only [Except.ok.injEq, Prod.mk.injEq] at h
              obtain ⟨h1, h2⟩ := h
              subst h1
              exact tryRev_sect rs n s o2 own2 ht
          | exhausted => rw [ht] at h; simp at h
          | failed e => rw [ht] at h; simp at h
  | envReader p => simp [getOption] at h
  | iniReader ss d => simp [getOption] at h

/-- Reader-list version of `getOption_sect`. -/
theorem tryRev_sect (l : CfgList) (n : String) (s : Option String) (o : ConfigOption)
    (own : Cfg) (h : tryRev l n s = TryRes.found o own) : sectEq o.section? s = true := by
  cases l with
  | nil => simp [tryRev] at h
  | cons r rest =>
      simp only [tryRev] at h
      cases ht : tryRev rest n s with
      | exhausted =>
          rw [ht] at h
          cases hg : getOption r n s with
          | ok b =>
              rw [hg] at h
              simp only [TryRes.found.injEq] at h
              obtain ⟨h1, h2⟩ := h
              exact h1 ▸ getOption_sect r n s b.1 b.2 (by rw [hg])
          | error e => rw [hg] at h; cases e <;> simp_all
      | found o2 own2 =>
          rw [ht] at h
          simp only [TryRes.found.injEq] at h
          obtain ⟨h1, h2⟩ := h
          exact h1 ▸ tryRev_sect rest n s o2 own2 ht
      | failed e => rw [ht] at h; simp at h
end

/-- Claim C10, confirmed.  Calling `option(...)` with a non-`None`
section `s2` mutates the config's own `section` attribute to `s2`; a
subsequent `option(...)` call without a section declares under `s2`; a
subsequent bare-name lookup `config[n]` resolves in section `s2`; and
any option such a bare-name lookup returns carries section `s2` — so
options previously declared under a different default section are no
longer reachable by bare name. -/
theorem c10_section_mutation (env : EnvMap) (opts : List ConfigOption) (rs : CfgList)
    (cs : Option String) (n2 : String) (d v : PyVal) (p : Option (PyVal → PyVal))
    (desc : Option String) (s2 : String) (n1 n3 : String) (d3 v3 : PyVal)
    (p3 : Option (PyVal → PyVal)) (desc3 : Option String) (o : ConfigOption) (own : Cfg)
    (hfind : getOption (optionB (Cfg.config opts rs cs) n2 d v p (Option.some s2) desc) n1
      (cfgSection (optionB (Cfg.config opts rs cs) n2 d v p (Option.some s2) desc))
      = Except.ok (o, own)) :
    cfgSection (optionB (Cfg.config opts rs cs) n2 d v p (Option.some s2) desc)
      = Option.some s2
    ∧ optionB (optionB (Cfg.config opts rs cs) n2 d v p (Option.some s2) desc) n3 d3 v3 p3
        Option.none desc3
      = Cfg.config
          (setAdd (setAdd opts (mkOption n2 d v p (Option.some s2) desc))
            (mkOption n3 d3 v3 p3 (Option.some s2) desc3))
          rs (Option.some s2)
    ∧ getItemStr env (optionB (Cfg.config opts rs cs) n2 d v p (Option.some s2) desc) n1
      = getItemTuple env (optionB (Cfg.config opts rs cs) n2 d v p (Option.some s2) desc)
          (n1, Option.some s2)
    ∧ o.section? = Option.some s2 := by
  refine ⟨rfl, rfl, rfl, ?_⟩
  have hs := getOption_sect
    (optionB (Cfg.config opts rs cs) n2 d v p (Option.some s2) desc)
    n1 (Option.some s2) o own hfind
  exact sectEq_some_right hs

/-- Claim C10, witness. -/
theorem c10_witness :
    cfgSection (optionB (Cfg.config [] CfgList.nil Option.none) "a" PyVal.none (PyVal.int 1)
      Option.none (Option.some "S") Option.none) = Option.some "S"
    ∧ optionB (optionB (Cfg.config [] CfgList.nil Option.none) "a" PyVal.none (PyVal.int 1)
        Option.none (Option.some "S") Option.none) "b" PyVal.none (PyVal.int 2) Option.none
        Option.none Option.none
      = Cfg.config
          (setAdd (setAdd [] (mkOption "a" PyVal.none (PyVal.int 1) Option.none
            (Option.some "S") Option.none))
            (mkOption "b" PyVal.none (PyVal.int 2) Option.none (Option.some "S") Option.none))
          CfgList.nil (Option.some "S")
    ∧ getItemStr [] (optionB (Cfg.config [] CfgList.nil Option.none) "a" PyVal.none (PyVal.int 1)
        Option.none (Option.some "S") Option.none) "a"
      = getItemTuple [] (optionB (Cfg.config [] CfgList.nil Option.none) "a" PyVal.none
        (PyVal.int 1) Option.none (Option.some "S") Option.none) ("a", Option.some "S")
    ∧ (mkOption "a" PyVal.none (PyVal.int 1) Option.none (Option.some "S") Option.none).section?
      = Option.some "S" :=
  c10_section_mutation [] [] CfgList.nil Option.none "a" PyVal.none (PyVal.int 1) Option.none
    Option.none "S" "a" "b" PyVal.none (PyVal.int 2) Option.none Option.none
    (mkOption "a" PyVal.none (PyVal.int 1) Option.none (Option.some "S") Option.none)
    (optionB (Cfg.config [] CfgList.nil Option.none) "a" PyVal.none (PyVal.int 1) Option.none
      (Option.some "S") Option.none)
    rfl

end ConfigUtils
